import Mathlib

/-!
Shallow embedding of `src/deauth_detector.py` (class `DeauthDetector`),
the event-to-alert detection engine of the WiFi deauthentication detector.

Modelling choices:
* Python floats returned by `time.time()` are modelled as integers (`ℤ`):
  the detector only ever subtracts timestamps and compares the difference
  with the configured window, so any linearly ordered abelian group models
  the arithmetic the code performs.
* Python `dict` / `collections.defaultdict` / `collections.Counter`
  objects are modelled as insertion-ordered association lists, which is
  exactly the iteration order Python guarantees; `Counter[k] += 1` on a
  missing key inserts the key at the end, and updating an existing key
  keeps its position.
* `Counter.most_common(n)` is `sorted(items, key=count, reverse=True)[:n]`
  with a stable sort, modelled by `List.mergeSort` (which is stable) with
  the descending-count comparator.
* The capture loop, tcpdump parsing, printing and the `running` flag are
  out of the engine core and are not modelled; `process_event` and
  `get_stats` are modelled as state-passing functions.
-/

/-- The `DeauthEvent` dataclass (src/deauth_detector.py, lines 41-49). -/
structure DeauthEvent where
  timestamp : String
  source_mac : String
  dest_mac : String
  bssid : String
  frame_type : String
  reason_code : Int
  channel : Option Int
deriving DecidableEq

/-- The `Alert` dataclass (src/deauth_detector.py, lines 52-61). -/
structure Alert where
  timestamp : String
  severity : String
  attack_type : String
  source_mac : String
  target_mac : String
  bssid : String
  frame_count : Nat
  description : String
deriving DecidableEq

/-- Lookup in the `defaultdict(list)` `self.deauth_counts`: a missing key
yields the empty list (line 92). -/
def dictGet : List (String × List Int) → String → List Int
  | [], _ => []
  | p :: rest, k => if p.1 = k then p.2 else dictGet rest k

/-- Assignment `self.deauth_counts[key] = ...` on an insertion-ordered
dict: an existing key keeps its position, a new key goes to the end. -/
def dictSet : List (String × List Int) → String → List Int → List (String × List Int)
  | [], k, v => [(k, v)]
  | p :: rest, k, v => if p.1 = k then (k, v) :: rest else p :: dictSet rest k v

/-- `Counter[k] += 1` (lines 165-166): a missing key counts as 0 and is
inserted at the end, an existing key keeps its position. -/
def counterInc : List (String × Nat) → String → List (String × Nat)
  | [], k => [(k, 1)]
  | p :: rest, k => if p.1 = k then (p.1, p.2 + 1) :: rest else p :: counterInc rest k

/-- `Counter[k]` read access: a missing key counts as 0. -/
def counterGet : List (String × Nat) → String → Nat
  | [], _ => 0
  | p :: rest, k => if p.1 = k then p.2 else counterGet rest k

/-- The engine state: the fields of `DeauthDetector` (lines 82-94). -/
structure DeauthDetector where
  interface : String
  threshold : Int
  window : Int
  events : List DeauthEvent
  alerts : List Alert
  deauth_counts : List (String × List Int)
  source_counts : List (String × Nat)
  target_counts : List (String × Nat)
deriving DecidableEq

/-- `DeauthDetector.__init__` (lines 82-94). -/
def DeauthDetector.init (interface : String) (threshold : Int) (window : Int) :
    DeauthDetector :=
  { interface := interface, threshold := threshold, window := window,
    events := [], alerts := [], deauth_counts := [],
    source_counts := [], target_counts := [] }

/-- The window key `f"{event.source_mac}->{event.dest_mac}"` (line 169). -/
def windowKey (event : DeauthEvent) : String :=
  event.source_mac ++ "->" ++ event.dest_mac

/-- The alert record built by `generate_alert` (lines 194-215): broadcast
destination means critical / Broadcast Deauth Attack, anything else means
high / Targeted Deauth Attack. -/
def mkAlert (event : DeauthEvent) (count : Nat) : Alert :=
  if event.dest_mac = "ff:ff:ff:ff:ff:ff" then
    { timestamp := event.timestamp, severity := "critical",
      attack_type := "Broadcast Deauth Attack",
      source_mac := event.source_mac, target_mac := event.dest_mac,
      bssid := event.bssid, frame_count := count,
      description := "Broadcast deauth flood from " ++ event.source_mac }
  else
    { timestamp := event.timestamp, severity := "high",
      attack_type := "Targeted Deauth Attack",
      source_mac := event.source_mac, target_mac := event.dest_mac,
      bssid := event.bssid, frame_count := count,
      description := "Targeted deauth attack: " ++ event.source_mac ++ " → "
        ++ event.dest_mac }

/-- `DeauthDetector.generate_alert` (lines 194-218): builds the alert and
appends it to `self.alerts`. -/
def DeauthDetector.generate_alert (d : DeauthDetector) (event : DeauthEvent)
    (count : Nat) : DeauthDetector × Alert :=
  let alert := mkAlert event count
  ({ d with alerts := d.alerts ++ [alert] }, alert)

/-- `DeauthDetector.process_event` (lines 160-184): append the event, bump
both counters, append `current_time` to the key's timestamp list, prune
every entry `t` with `current_time - t >= window`, store the pruned list
back, and alert when the pruned length reaches the threshold. -/
def DeauthDetector.process_event (d : DeauthDetector) (event : DeauthEvent)
    (current_time : Int) : DeauthDetector × Option Alert :=
  let d₁ : DeauthDetector :=
    { d with events := d.events ++ [event],
             source_counts := counterInc d.source_counts event.source_mac,
             target_counts := counterInc d.target_counts event.dest_mac }
  let key := windowKey event
  let appended := dictGet d₁.deauth_counts key ++ [current_time]
  let pruned := appended.filter (fun t => decide (current_time - t < d₁.window))
  let d₂ : DeauthDetector := { d₁ with deauth_counts := dictSet d₁.deauth_counts key pruned }
  if d₂.threshold ≤ (pruned.length : Int) then
    let r := d₂.generate_alert event pruned.length
    (r.1, some r.2)
  else
    (d₂, none)

/-- The dictionary returned by `get_stats` (lines 233-242). -/
structure Stats where
  total_events : Nat
  total_alerts : Nat
  unique_sources : Nat
  unique_targets : Nat
  top_sources : List (String × Nat)
  top_targets : List (String × Nat)
deriving DecidableEq

/-- `Counter.most_common(n)`: the first `n` entries of a stable descending
sort of the counter's items by count (CPython documents `most_common(n)`
as `sorted(items, key=count, reverse=True)[:n]` with a stable sort). -/
def most_common (c : List (String × Nat)) (n : Nat) : List (String × Nat) :=
  (c.mergeSort (fun a b => decide (b.2 ≤ a.2))).take n

/-- `DeauthDetector.get_stats` (lines 233-242); the method reads the state
and returns it unchanged together with the statistics dictionary. -/
def DeauthDetector.get_stats (d : DeauthDetector) : DeauthDetector × Stats :=
  (d, { total_events := d.events.length,
        total_alerts := d.alerts.length,
        unique_sources := d.source_counts.length,
        unique_targets := d.target_counts.length,
        top_sources := most_common d.source_counts 5,
        top_targets := most_common d.target_counts 5 })

/-- Feed a list of (event, arrival time) pairs through `process_event`,
collecting the emitted alerts in order. -/
def runEvents : DeauthDetector → List (DeauthEvent × Int) → DeauthDetector × List Alert
  | d, [] => (d, [])
  | d, ev :: evs =>
    let r := d.process_event ev.1 ev.2
    let rest := runEvents r.1 evs
    (rest.1, r.2.toList ++ rest.2)

/-- The post-prune window count of a key: length of its stored timestamp
list (the quantity compared with the threshold on line 183). -/
def windowCount (d : DeauthDetector) (k : String) : Nat :=
  (dictGet d.deauth_counts k).length

/-- Sum of all frequencies recorded in a counter. -/
def sumCounts (c : List (String × Nat)) : Nat :=
  (c.map Prod.snd).sum

/-- Modelled from the spec: the snapshot ordering the spec asks of
`most_common` - entries ordered by strictly descending frequency, ties
broken by first-observed (insertion) order, expressed by sorting the
index-tagged table by the total order "higher count first, equal counts
by lower index first" and then dropping the index tags. -/
def topNSpec (c : List (String × Nat)) (n : Nat) : List (String × Nat) :=
  ((c.enum.mergeSort
      (fun a b => decide (b.2.2 < a.2.2 ∨ (a.2.2 = b.2.2 ∧ a.1 ≤ b.1)))).map
    (fun p => p.2)).take n

/-- The pruned timestamp list stored back by `process_event` (lines 171-177):
the previously stored list with `current_time` appended, filtered down to
the entries strictly younger than the window. -/
def prunedList (d : DeauthDetector) (event : DeauthEvent) (current_time : Int) :
    List Int :=
  (dictGet d.deauth_counts (windowKey event) ++ [current_time]).filter
    (fun t => decide (current_time - t < d.window))

/-- A concrete targeted deauth event, as in the demo scenario. -/
def evA : DeauthEvent :=
  { timestamp := "2026-01-01T00:00:00", source_mac := "aa:bb:cc:dd:ee:01",
    dest_mac := "11:22:33:44:55:66", bssid := "aa:bb:cc:dd:ee:01",
    frame_type := "deauth", reason_code := 0, channel := none }

/-- A concrete event whose source MAC is the argument, used to build runs
with many distinct sources. -/
def mkSrcEvent (s : String) : DeauthEvent :=
  { timestamp := "t", source_mac := s, dest_mac := "d", bssid := "b",
    frame_type := "deauth", reason_code := 0, channel := none }

section HelperLemmas

theorem dictGet_dictSet_self (m : List (String × List Int)) (k : String)
    (v : List Int) : dictGet (dictSet m k v) k = v := by
  induction m with
  | nil => simp [dictGet, dictSet]
  | cons p rest ih =>
    by_cases h : p.1 = k
    · simp [dictGet, dictSet, h]
    · simp [dictGet, dictSet, h, ih]

theorem dictGet_dictSet_ne (m : List (String × List Int)) (k k' : String)
    (v : List Int) (h : k' ≠ k) : dictGet (dictSet m k v) k' = dictGet m k' := by
  have h' : ¬ k = k' := fun hh => h hh.symm
  induction m with
  | nil => simp [dictGet, dictSet, h']
  | cons p rest ih =>
    by_cases hp : p.1 = k
    · subst hp
      simp [dictGet, dictSet, h']
    · simp [dictGet, dictSet, hp, ih]

theorem counterGet_counterInc (c : List (String × Nat)) (k s : String) :
    counterGet (counterInc c k) s = counterGet c s + if s = k then 1 else 0 := by
  induction c with
  | nil =>
    by_cases h : s = k
    · subst h; simp [counterInc, counterGet]
    · simp [counterInc, counterGet, h, Ne.symm h]
  | cons p rest ih =>
    by_cases hp : p.1 = k
    · subst hp
      by_cases hs : s = p.1
      · subst hs; simp [counterInc, counterGet]
      · simp [counterInc, counterGet, hs, Ne.symm hs]
    · by_cases hs : p.1 = s
      · have hsk : ¬ s = k := fun hh => hp (by rw [hs, hh])
        simp [counterInc, counterGet, hp, hs, hsk]
      · simp [counterInc, counterGet, hp, hs, ih]

theorem sumCounts_counterInc (c : List (String × Nat)) (k : String) :
    sumCounts (counterInc c k) = sumCounts c + 1 := by
  induction c with
  | nil => simp [counterInc, sumCounts]
  | cons p rest ih =>
    by_cases h : p.1 = k
    · simp [counterInc, sumCounts, h]
      omega
    · simp only [counterInc, sumCounts, h, if_false, List.map_cons, List.sum_cons] at *
      omega

theorem dictGet_eq_nil_of_not_mem (m : List (String × List Int)) (k : String)
    (h : k ∉ m.map Prod.fst) : dictGet m k = [] := by
  induction m with
  | nil => simp [dictGet]
  | cons p rest ih =>
    simp only [List.map_cons, List.mem_cons] at h
    push_neg at h
    have h1 : ¬ p.1 = k := fun hh => h.1 hh.symm
    simp [dictGet, h1, ih h.2]

theorem process_event_events (d : DeauthDetector) (e : DeauthEvent) (now : Int) :
    (d.process_event e now).1.events = d.events ++ [e] := by
  simp only [DeauthDetector.process_event, DeauthDetector.generate_alert]
  split <;> rfl

theorem process_event_source_counts (d : DeauthDetector) (e : DeauthEvent)
    (now : Int) :
    (d.process_event e now).1.source_counts = counterInc d.source_counts e.source_mac := by
  simp only [DeauthDetector.process_event, DeauthDetector.generate_alert]
  split <;> rfl

theorem process_event_target_counts (d : DeauthDetector) (e : DeauthEvent)
    (now : Int) :
    (d.process_event e now).1.target_counts = counterInc d.target_counts e.dest_mac := by
  simp only [DeauthDetector.process_event, DeauthDetector.generate_alert]
  split <;> rfl

theorem process_event_deauth_counts (d : DeauthDetector) (e : DeauthEvent)
    (now : Int) :
    (d.process_event e now).1.deauth_counts =
      dictSet d.deauth_counts (windowKey e) (prunedList d e now) := by
  simp only [DeauthDetector.process_event, DeauthDetector.generate_alert, prunedList]
  split <;> rfl

theorem process_event_threshold (d : DeauthDetector) (e : DeauthEvent) (now : Int) :
    (d.process_event e now).1.threshold = d.threshold := by
  simp only [DeauthDetector.process_event, DeauthDetector.generate_alert]
  split <;> rfl

theorem process_event_window (d : DeauthDetector) (e : DeauthEvent) (now : Int) :
    (d.process_event e now).1.window = d.window := by
  simp only [DeauthDetector.process_event, DeauthDetector.generate_alert]
  split <;> rfl

theorem process_event_interface (d : DeauthDetector) (e : DeauthEvent) (now : Int) :
    (d.process_event e now).1.interface = d.interface := by
  simp only [DeauthDetector.process_event, DeauthDetector.generate_alert]
  split <;> rfl

theorem process_event_snd (d : DeauthDetector) (e : DeauthEvent) (now : Int) :
    (d.process_event e now).2 =
      if d.threshold ≤ ((prunedList d e now).length : Int)
      then some (mkAlert e (prunedList d e now).length) else none := by
  simp only [DeauthDetector.process_event, DeauthDetector.generate_alert, prunedList]
  split <;> rfl

theorem process_event_alerts (d : DeauthDetector) (e : DeauthEvent) (now : Int) :
    (d.process_event e now).1.alerts = d.alerts ++ ((d.process_event e now).2).toList := by
  simp only [DeauthDetector.process_event, DeauthDetector.generate_alert]
  split <;> simp

theorem mkAlert_frame_count (e : DeauthEvent) (n : Nat) :
    (mkAlert e n).frame_count = n := by
  rw [mkAlert]; split <;> rfl

theorem runEvents_invariant (evs : List (DeauthEvent × Int)) (d : DeauthDetector) :
    (runEvents d evs).1.events.length = d.events.length + evs.length ∧
    (runEvents d evs).1.alerts = d.alerts ++ (runEvents d evs).2 ∧
    sumCounts (runEvents d evs).1.source_counts = sumCounts d.source_counts + evs.length ∧
    sumCounts (runEvents d evs).1.target_counts = sumCounts d.target_counts + evs.length ∧
    (runEvents d evs).1.threshold = d.threshold ∧
    (runEvents d evs).1.window = d.window := by
  induction evs generalizing d with
  | nil => simp [runEvents]
  | cons ev evs ih =>
    obtain ⟨h1, h2, h3, h4, h5, h6⟩ := ih (d.process_event ev.1 ev.2).1
    refine ⟨?_, ?_, ?_, ?_, ?_, ?_⟩
    · show (runEvents (d.process_event ev.1 ev.2).1 evs).1.events.length = _
      rw [h1, process_event_events]
      simp; omega
    · show (runEvents (d.process_event ev.1 ev.2).1 evs).1.alerts =
        d.alerts ++ (((d.process_event ev.1 ev.2).2).toList ++ (runEvents (d.process_event ev.1 ev.2).1 evs).2)
      rw [h2, process_event_alerts, List.append_assoc]
    · show sumCounts (runEvents (d.process_event ev.1 ev.2).1 evs).1.source_counts = _
      rw [h3, process_event_source_counts, sumCounts_counterInc]
      simp; omega
    · show sumCounts (runEvents (d.process_event ev.1 ev.2).1 evs).1.target_counts = _
      rw [h4, process_event_target_counts, sumCounts_counterInc]
      simp; omega
    · show (runEvents (d.process_event ev.1 ev.2).1 evs).1.threshold = _
      rw [h5, process_event_threshold]
    · show (runEvents (d.process_event ev.1 ev.2).1 evs).1.window = _
      rw [h6, process_event_window]

theorem runEvents_alerts_mem (evs : List (DeauthEvent × Int)) (d : DeauthDetector)
    (a : Alert) (ha : a ∈ (runEvents d evs).2) :
    ∃ e n, a = mkAlert e n ∧ d.threshold ≤ (n : Int) := by
  induction evs generalizing d with
  | nil => simp [runEvents] at ha
  | cons ev evs ih =>
    have ha' : a ∈ ((d.process_event ev.1 ev.2).2).toList ∨
        a ∈ (runEvents (d.process_event ev.1 ev.2).1 evs).2 := by
      simpa [runEvents] using ha
    rcases ha' with h | h
    · rw [process_event_snd] at h
      by_cases hth : d.threshold ≤ ((prunedList d ev.1 ev.2).length : Int)
      · simp [hth] at h
        exact ⟨ev.1, (prunedList d ev.1 ev.2).length, h, hth⟩
      · simp [hth] at h
    · obtain ⟨e, n, he, hn⟩ := ih _ h
      rw [process_event_threshold] at hn
      exact ⟨e, n, he, hn⟩

end HelperLemmas

/-- C1: for every processed event, an Alert is emitted if and only if the
post-prune window count of the event's key is at least the threshold; the
alert log grows by exactly that one alert when the threshold is met and is
unchanged otherwise, with no debounce, cooldown or suppression. -/
theorem C1_threshold_alerting (d : DeauthDetector) (e : DeauthEvent) (now : Int) :
    (((d.process_event e now).2).isSome ↔
      d.threshold ≤ (windowCount (d.process_event e now).1 (windowKey e) : Int)) ∧
    (d.process_event e now).1.alerts =
      (if d.threshold ≤ (windowCount (d.process_event e now).1 (windowKey e) : Int)
       then d.alerts ++ [mkAlert e (windowCount (d.process_event e now).1 (windowKey e))]
       else d.alerts) := by
  have hcount : windowCount (d.process_event e now).1 (windowKey e) =
      (prunedList d e now).length := by
    rw [windowCount, process_event_deauth_counts, dictGet_dictSet_self]
  rw [hcount, process_event_alerts, process_event_snd]
  by_cases hth : d.threshold ≤ ((prunedList d e now).length : Int) <;> simp [hth]

/-- C2: after the prune step, the window count of the processed key equals
the number of recorded timestamps (previously stored plus the current one)
with now - t < window, and every timestamp still stored for that key is
strictly inside the window, so no stale entry is ever counted. -/
theorem C2_prune_exact (d : DeauthDetector) (e : DeauthEvent) (now : Int) :
    windowCount (d.process_event e now).1 (windowKey e) =
      ((dictGet d.deauth_counts (windowKey e) ++ [now]).filter
        (fun t => decide (now - t < d.window))).length ∧
    ((dictGet (d.process_event e now).1.deauth_counts (windowKey e)).all
        (fun t => decide (now - t < d.window))) = true := by
  constructor
  · rw [windowCount, process_event_deauth_counts, dictGet_dictSet_self, prunedList]
  · rw [process_event_deauth_counts, dictGet_dictSet_self, prunedList]
    simp only [List.all_eq_true, List.mem_filter]
    intro t ht
    exact ht.2

/-- C3: the classification is a pure function of the event: a broadcast
destination always yields severity critical and attack type Broadcast
Deauth Attack, any other destination yields high and Targeted Deauth
Attack, and no other severity or attack type ever appears in the alert log
of any run of the detector. -/
theorem C3_classification (e : DeauthEvent) (n : Nat) (i : String) (th w : Int)
    (evs : List (DeauthEvent × Int)) :
    ((mkAlert e n).severity =
        if e.dest_mac = "ff:ff:ff:ff:ff:ff" then "critical" else "high") ∧
    ((mkAlert e n).attack_type =
        if e.dest_mac = "ff:ff:ff:ff:ff:ff" then "Broadcast Deauth Attack"
        else "Targeted Deauth Attack") ∧
    (∀ d : DeauthDetector, (d.generate_alert e n).2 = mkAlert e n) ∧
    (((runEvents (DeauthDetector.init i th w) evs).1.alerts).all
        (fun a =>
          (a.severity == "critical" && a.attack_type == "Broadcast Deauth Attack")
            || (a.severity == "high" && a.attack_type == "Targeted Deauth Attack")))
      = true := by
  refine ⟨?_, ?_, fun d => rfl, ?_⟩
  · rw [mkAlert]; split <;> rfl
  · rw [mkAlert]; split <;> rfl
  · have hinv := runEvents_invariant evs (DeauthDetector.init i th w)
    rw [List.all_eq_true]
    intro a ha
    rw [hinv.2.1] at ha
    have ha' : a ∈ (runEvents (DeauthDetector.init i th w) evs).2 := by
      simpa [DeauthDetector.init] using ha
    obtain ⟨e', n', rfl, -⟩ := runEvents_alerts_mem evs _ a ha'
    rw [mkAlert]
    split <;> simp

/-- C4: the frame_count recorded on an emitted alert equals the post-prune
window count of the triggering key at trigger time, and every alert in the
log of any run carries a frame_count at least the configured threshold. -/
theorem C4_frame_count (d : DeauthDetector) (e : DeauthEvent) (now : Int)
    (i : String) (th w : Int) (evs : List (DeauthEvent × Int)) :
    (((d.process_event e now).2).all
        (fun a => a.frame_count == windowCount (d.process_event e now).1 (windowKey e)))
      = true ∧
    (((runEvents (DeauthDetector.init i th w) evs).1.alerts).all
        (fun a => decide (th ≤ (a.frame_count : Int)))) = true := by
  constructor
  · have hcount : windowCount (d.process_event e now).1 (windowKey e) =
        (prunedList d e now).length := by
      rw [windowCount, process_event_deauth_counts, dictGet_dictSet_self]
    rw [process_event_snd, hcount]
    by_cases hth : d.threshold ≤ ((prunedList d e now).length : Int) <;>
      simp [hth, mkAlert_frame_count]
  · have hinv := runEvents_invariant evs (DeauthDetector.init i th w)
    rw [List.all_eq_true]
    intro a ha
    rw [hinv.2.1] at ha
    have ha' : a ∈ (runEvents (DeauthDetector.init i th w) evs).2 := by
      simpa [DeauthDetector.init] using ha
    obtain ⟨e', n', rfl, hn⟩ := runEvents_alerts_mem evs _ a ha'
    simp only [mkAlert_frame_count]
    simpa [DeauthDetector.init] using hn

/-- C5: after any run of N events from a fresh detector, total_events is N,
total_alerts equals the number of Alert emissions, the alert log is exactly
the list of emitted alerts, and the per-source and per-target frequency
counts each sum to N. -/
theorem C5_stats_consistency (i : String) (th w : Int)
    (evs : List (DeauthEvent × Int)) :
    (((runEvents (DeauthDetector.init i th w) evs).1.get_stats).2.total_events
      = evs.length) ∧
    (((runEvents (DeauthDetector.init i th w) evs).1.get_stats).2.total_alerts
      = (runEvents (DeauthDetector.init i th w) evs).2.length) ∧
    ((runEvents (DeauthDetector.init i th w) evs).1.alerts
      = (runEvents (DeauthDetector.init i th w) evs).2) ∧
    (sumCounts (runEvents (DeauthDetector.init i th w) evs).1.source_counts
      = evs.length) ∧
    (sumCounts (runEvents (DeauthDetector.init i th w) evs).1.target_counts
      = evs.length) := by
  obtain ⟨h1, h2, h3, h4, -, -⟩ := runEvents_invariant evs (DeauthDetector.init i th w)
  have halerts : (runEvents (DeauthDetector.init i th w) evs).1.alerts
      = (runEvents (DeauthDetector.init i th w) evs).2 := by
    simpa [DeauthDetector.init] using h2
  refine ⟨?_, ?_, halerts, ?_, ?_⟩
  · show (runEvents (DeauthDetector.init i th w) evs).1.events.length = evs.length
    simpa [DeauthDetector.init] using h1
  · show (runEvents (DeauthDetector.init i th w) evs).1.alerts.length = _
    rw [halerts]
  · simpa [DeauthDetector.init, sumCounts] using h3
  · simpa [DeauthDetector.init, sumCounts] using h4

/-- C6 counterexample: pruning does not only remove from the front. With
window 60, the key's stored list [100, 5] (the 5 arrived late, after the
100) is pruned at time 110 to [100, 110]: the expired 5 is removed from
the middle of the sequence even though the front entry 100 survives, so a
late-arriving old timestamp does not persist until aged out from the
front. -/
theorem C6_counterexample :
    dictGet ((runEvents (DeauthDetector.init "demo" 10 60)
        [(evA, 100), (evA, 5), (evA, 110)]).1.deauth_counts) (windowKey evA)
      = [100, 110] ∧
    (5 : Int) ∉ dictGet ((runEvents (DeauthDetector.init "demo" 10 60)
        [(evA, 100), (evA, 5), (evA, 110)]).1.deauth_counts) (windowKey evA) := by
  decide

/-- C6 (amended): pruning removes every stored timestamp of the processed
key whose age meets or exceeds the window, regardless of its position in
the sequence, keeping exactly the in-window entries in their stored
order. -/
theorem C6_amended_prune_all_positions (d : DeauthDetector) (e : DeauthEvent)
    (now : Int) :
    dictGet (d.process_event e now).1.deauth_counts (windowKey e) =
      (dictGet d.deauth_counts (windowKey e) ++ [now]).filter
        (fun t => decide (now - t < d.window)) ∧
    ∀ t : Int,
      t ∈ dictGet (d.process_event e now).1.deauth_counts (windowKey e) ↔
        (t ∈ dictGet d.deauth_counts (windowKey e) ++ [now] ∧ now - t < d.window) := by
  have h : dictGet (d.process_event e now).1.deauth_counts (windowKey e) =
      (dictGet d.deauth_counts (windowKey e) ++ [now]).filter
        (fun t => decide (now - t < d.window)) := by
    rw [process_event_deauth_counts, dictGet_dictSet_self, prunedList]
  refine ⟨h, fun t => ?_⟩
  rw [h]
  simp only [List.mem_filter, List.mem_append, decide_eq_true_eq]

/-- C7: process_event treats every field of the event beyond the (source,
destination) pair as an opaque value - two events agreeing on those two
fields (even with empty MAC strings or an unknown frame_type) produce the
same window store, the same frequency counters and the same alert
decision - and looking up a key never seen before yields the empty
sequence, hence window count zero. -/
theorem C7_total_opaque (d : DeauthDetector) (now : Int)
    (s t ts₁ bs₁ ft₁ : String) (rc₁ : Int) (ch₁ : Option Int)
    (ts₂ bs₂ ft₂ : String) (rc₂ : Int) (ch₂ : Option Int) :
    (d.process_event ⟨ts₁, s, t, bs₁, ft₁, rc₁, ch₁⟩ now).1.deauth_counts =
      (d.process_event ⟨ts₂, s, t, bs₂, ft₂, rc₂, ch₂⟩ now).1.deauth_counts ∧
    (d.process_event ⟨ts₁, s, t, bs₁, ft₁, rc₁, ch₁⟩ now).1.source_counts =
      (d.process_event ⟨ts₂, s, t, bs₂, ft₂, rc₂, ch₂⟩ now).1.source_counts ∧
    (d.process_event ⟨ts₁, s, t, bs₁, ft₁, rc₁, ch₁⟩ now).1.target_counts =
      (d.process_event ⟨ts₂, s, t, bs₂, ft₂, rc₂, ch₂⟩ now).1.target_counts ∧
    ((d.process_event ⟨ts₁, s, t, bs₁, ft₁, rc₁, ch₁⟩ now).2).isSome =
      ((d.process_event ⟨ts₂, s, t, bs₂, ft₂, rc₂, ch₂⟩ now).2).isSome ∧
    (∀ (m : List (String × List Int)) (k : String),
      dictGet m k = [] ∨ k ∈ m.map Prod.fst) ∧
    (windowCount d (windowKey ⟨ts₁, s, t, bs₁, ft₁, rc₁, ch₁⟩) = 0 ∨
      windowKey ⟨ts₁, s, t, bs₁, ft₁, rc₁, ch₁⟩ ∈ d.deauth_counts.map Prod.fst) := by
  have hwk : windowKey ⟨ts₁, s, t, bs₁, ft₁, rc₁, ch₁⟩ =
      windowKey ⟨ts₂, s, t, bs₂, ft₂, rc₂, ch₂⟩ := rfl
  have hpl : prunedList d ⟨ts₁, s, t, bs₁, ft₁, rc₁, ch₁⟩ now =
      prunedList d ⟨ts₂, s, t, bs₂, ft₂, rc₂, ch₂⟩ now := rfl
  refine ⟨?_, ?_, ?_, ?_, ?_, ?_⟩
  · rw [process_event_deauth_counts, process_event_deauth_counts, hwk, hpl]
  · rw [process_event_source_counts, process_event_source_counts]
  · rw [process_event_target_counts, process_event_target_counts]
  · rw [process_event_snd, process_event_snd, hpl]
    by_cases hth : d.threshold ≤
        ((prunedList d ⟨ts₂, s, t, bs₂, ft₂, rc₂, ch₂⟩ now).length : Int) <;>
      simp [hth]
  · intro m k
    by_cases hk : k ∈ m.map Prod.fst
    · exact Or.inr hk
    · exact Or.inl (dictGet_eq_nil_of_not_mem m k hk)
  · by_cases hk : windowKey ⟨ts₁, s, t, bs₁, ft₁, rc₁, ch₁⟩ ∈ d.deauth_counts.map Prod.fst
    · exact Or.inr hk
    · refine Or.inl ?_
      rw [windowCount, dictGet_eq_nil_of_not_mem _ _ hk]
      rfl

/-- C8 counterexample: N is not parameterizable. get_stats hard-codes the
top 5: after six events from six distinct sources, the source table has
six entries but the snapshot returns exactly five, and the sixth source's
entry is absent with no way to request it. -/
theorem C8_counterexample :
    ((runEvents (DeauthDetector.init "x" 10 60)
        [(mkSrcEvent "s1", 0), (mkSrcEvent "s2", 0), (mkSrcEvent "s3", 0),
         (mkSrcEvent "s4", 0), (mkSrcEvent "s5", 0), (mkSrcEvent "s6", 0)]).1.source_counts
      = [("s1", 1), ("s2", 1), ("s3", 1), ("s4", 1), ("s5", 1), ("s6", 1)]) ∧
    (((runEvents (DeauthDetector.init "x" 10 60)
        [(mkSrcEvent "s1", 0), (mkSrcEvent "s2", 0), (mkSrcEvent "s3", 0),
         (mkSrcEvent "s4", 0), (mkSrcEvent "s5", 0), (mkSrcEvent "s6", 0)]).1.get_stats).2.top_sources
      = [("s1", 1), ("s2", 1), ("s3", 1), ("s4", 1), ("s5", 1)]) := by
  have hs : (runEvents (DeauthDetector.init "x" 10 60)
        [(mkSrcEvent "s1", 0), (mkSrcEvent "s2", 0), (mkSrcEvent "s3", 0),
         (mkSrcEvent "s4", 0), (mkSrcEvent "s5", 0), (mkSrcEvent "s6", 0)]).1.source_counts
      = [("s1", 1), ("s2", 1), ("s3", 1), ("s4", 1), ("s5", 1), ("s6", 1)] := by
    decide
  refine ⟨hs, ?_⟩
  show most_common _ 5 = _
  rw [hs, most_common,
    List.mergeSort_of_sorted (l :=
      [("s1", 1), ("s2", 1), ("s3", 1), ("s4", 1), ("s5", 1), ("s6", 1)]) (by decide)]
  rfl

/-- C8 (amended): the snapshot returns the current total_events and
total_alerts together with the top-5 source and target frequency entries
(N fixed at 5, not parameterizable), ordered by descending frequency with
ties broken by first-observed (insertion) order - the code's stable
descending sort coincides with the spec-side ordering topNSpec. -/
theorem C8_amended_top5 (d : DeauthDetector) :
    ((d.get_stats).2.total_events = d.events.length) ∧
    ((d.get_stats).2.total_alerts = d.alerts.length) ∧
    ((d.get_stats).2.top_sources = topNSpec d.source_counts 5) ∧
    ((d.get_stats).2.top_targets = topNSpec d.target_counts 5) := by
  have hcomp : (fun a b : Nat × (String × Nat) =>
      decide (b.2.2 < a.2.2 ∨ (a.2.2 = b.2.2 ∧ a.1 ≤ b.1)))
      = List.enumLE (fun a b : String × Nat => decide (b.2 ≤ a.2)) := by
    funext a b
    simp only [List.enumLE]
    by_cases h1 : (b.2.2 : Nat) ≤ a.2.2
    · by_cases h2 : (a.2.2 : Nat) ≤ b.2.2
      · have hxy : a.2.2 = b.2.2 := Nat.le_antisymm h2 h1
        simp [h1, h2, hxy]
      · have hlt : b.2.2 < a.2.2 := Nat.lt_of_le_of_ne h1 (fun hh => h2 (Nat.le_of_eq hh.symm))
        simp [h1, h2, hlt]
    · have hlt : ¬ b.2.2 < a.2.2 := fun hh => h1 (Nat.le_of_lt hh)
      have hne : ¬ a.2.2 = b.2.2 := fun hh => h1 (Nat.le_of_eq hh.symm)
      simp [h1, hlt, hne]
  have key : ∀ c : List (String × Nat), most_common c 5 = topNSpec c 5 := by
    intro c
    simp only [most_common, topNSpec, hcomp]
    rw [List.mergeSort_enum]
  exact ⟨rfl, rfl, key d.source_counts, key d.target_counts⟩

/-- C9: get_stats reads the state and leaves it unchanged, so two
consecutive snapshots with no intervening processed events are
identical. -/
theorem C9_snapshot_idempotent (d : DeauthDetector) :
    ((d.get_stats).1 = d) ∧ ((((d.get_stats).1).get_stats).2 = (d.get_stats).2) :=
  ⟨rfl, rfl⟩

/-- C10: one process_event call appends exactly the processed event to the
event log, bumps exactly the event's source and target counters by one
each (all other counters unchanged), rewrites the window store only at the
event's key, appends at most one alert (exactly the emitted one), and
leaves threshold, window and interface unchanged. -/
theorem C10_frame_conditions (d : DeauthDetector) (e : DeauthEvent) (now : Int) :
    ((d.process_event e now).1.events = d.events ++ [e]) ∧
    (∀ s, counterGet (d.process_event e now).1.source_counts s =
        counterGet d.source_counts s + if s = e.source_mac then 1 else 0) ∧
    (∀ s, counterGet (d.process_event e now).1.target_counts s =
        counterGet d.target_counts s + if s = e.dest_mac then 1 else 0) ∧
    (∀ k, dictGet (d.process_event e now).1.deauth_counts k =
        if k = windowKey e then prunedList d e now else dictGet d.deauth_counts k) ∧
    ((d.process_event e now).1.alerts = d.alerts ++ ((d.process_event e now).2).toList) ∧
    (((d.process_event e now).2).toList.length ≤ 1) ∧
    ((d.process_event e now).1.threshold = d.threshold) ∧
    ((d.process_event e now).1.window = d.window) ∧
    ((d.process_event e now).1.interface = d.interface) := by
  refine ⟨process_event_events d e now, ?_, ?_, ?_, process_event_alerts d e now,
    ?_, process_event_threshold d e now, process_event_window d e now,
    process_event_interface d e now⟩
  · intro s
    rw [process_event_source_counts, counterGet_counterInc]
  · intro s
    rw [process_event_target_counts, counterGet_counterInc]
  · intro k
    rw [process_event_deauth_counts]
    by_cases hk : k = windowKey e
    · subst hk
      rw [dictGet_dictSet_self, if_pos rfl]
    · rw [dictGet_dictSet_ne _ _ _ _ hk, if_neg hk]
  · rw [process_event_snd]
    split <;> simp
